import Mathlib

/-!
Verification of the pr-metrics aggregation core.

Shallow embedding of `src/metrics.ts` (the Aggregator: `calculateMetrics`,
`median`, `percentile`) and `src/insights.ts` (the Evaluator:
`detectInsights`, `getHealthEmoji`).

Modelling conventions:
- JavaScript numbers are embedded as `ℚ`; `Date` values as their
  `getTime()` epoch-millisecond value, also `ℚ`.
- A `Map<number, V>` that the source only reads through `.get(k) || default`
  is embedded as a total function `Nat → V` returning the default off-domain
  (`reviewsByPR`); a `Map` whose `.size` and `.values()` the source reads is
  embedded as an association list `List (Nat × V)` (`prSizes`,
  `firstCommitDates`), whose `lookup` is the JS `.get`.
- JavaScript `Array.prototype.sort` is guaranteed stable; it is embedded as a
  stable insertion sort `sortByKey` on the comparator's key.
- Nullable fields (`number | null`) are `Option` values.
- The interpolated numeric fragments of insight message strings are a
  rendering concern and are elided; each message keeps the static text of the
  source, so it is present and non-empty.
-/

namespace PRMetrics

/-! ## Data model, from `src/github-client.ts` -/

/-- PullRequest record: `src/github-client.ts` lines 13-19. -/
structure PullRequest where
  number : Nat
  title : String
  createdAt : ℚ
  mergedAt : ℚ
  author : String
deriving DecidableEq, Repr

/-- Review record: `src/github-client.ts` lines 21-27.  `commentCount` is a
JS number (it may be fractional: the client distributes inline comments
across reviews), hence `ℚ`. -/
structure Review where
  prNumber : Nat
  submittedAt : ℚ
  author : String
  state : String
  commentCount : ℚ
deriving DecidableEq, Repr

/-- WorkflowRunSummary: `src/github-client.ts` lines 29-33. -/
structure WorkflowRunSummary where
  totalRuns : Nat
  successCount : Nat
  failureCount : Nat
deriving DecidableEq, Repr

/-- Ship-event source tag: the union type `'deployment' | 'release'`. -/
inductive ShipSource where
  | deployment
  | release
deriving DecidableEq, Repr

/-- ShipEvent: `src/github-client.ts` lines 35-41. -/
structure ShipEvent where
  id : Nat
  sha : String
  createdAt : ℚ
  source : ShipSource
  label : String
deriving DecidableEq, Repr

/-- Entry of the `prSizes` map: `{ additions: number; deletions: number }`. -/
structure PRSize where
  additions : ℚ
  deletions : ℚ
deriving DecidableEq, Repr

/-- PR size category union `'small' | 'medium' | 'large'`. -/
inductive SizeCategory where
  | small
  | medium
  | large
deriving DecidableEq, Repr

/-- Cycle-time trend union `'improving' | 'stable' | 'degrading'`. -/
inductive Trend where
  | improving
  | stable
  | degrading
deriving DecidableEq, Repr

/-- MetricsOptions: `src/metrics.ts` lines 43-49.  Every field of the source
interface is optional. -/
structure MetricsOptions where
  prSizes : Option (List (Nat × PRSize))
  workflowRuns : Option WorkflowRunSummary
  shipEvents : Option (List ShipEvent)
  firstCommitDates : Option (List (Nat × ℚ))
  periodDays : Option ℚ
deriving DecidableEq, Repr

/-- SprintMetrics: `src/metrics.ts` lines 9-41. -/
structure SprintMetrics where
  cycleTimeMedianHours : ℚ
  cycleTimeP90Hours : ℚ
  throughputCount : Nat
  wipCount : Nat
  prSizeMedian : Option ℚ
  prSizeCategory : Option SizeCategory
  buildSuccessRate : Option ℚ
  buildTotalRuns : Option Nat
  shipFrequency : Option ℚ
  shipCount : Option Nat
  shipSource : Option ShipSource
  leadTimeMedianHours : Option ℚ
  reviewTurnaroundMedianHours : ℚ
  collaboratorCount : Nat
  concentrationRatio : ℚ
  reviewDepthScore : ℚ
  cycleTimeTrend : Trend
  prNumbers : List Nat
deriving DecidableEq, Repr

/-- Thresholds: the configuration interface in `src/config.ts`. -/
structure Thresholds where
  cycleTimeWarningHours : ℚ
  cycleTimeCriticalHours : ℚ
  reviewWarningHours : ℚ
  reviewCriticalHours : ℚ
  wipWarningRatio : ℚ
  wipCriticalRatio : ℚ
  concentrationWarning : ℚ
  concentrationCritical : ℚ
  reviewDepthWarning : ℚ
  reviewDepthCritical : ℚ
  prSizeWarning : ℚ
  prSizeCritical : ℚ
  buildSuccessWarning : ℚ
  buildSuccessCritical : ℚ
deriving DecidableEq, Repr

/-! ## Stable sorting

JavaScript's `Array.prototype.sort` with a numeric-key comparator is a stable
ascending sort; a stable sort's output is the unique permutation that is
sorted on the key and keeps the relative order of key-ties, so any stable
algorithm embeds it faithfully.  We use insertion sort. -/

/-- Insert `x` in front of the first element whose key is not smaller,
keeping `x` before later key-ties (stability). -/
def insertByKey {α : Type} (key : α → ℚ) (x : α) : List α → List α
  | [] => [x]
  | y :: l => if key x ≤ key y then x :: y :: l else y :: insertByKey key x l

/-- Stable ascending sort by a rational key. -/
def sortByKey {α : Type} (key : α → ℚ) : List α → List α
  | [] => []
  | x :: l => insertByKey key x (sortByKey key l)

/-! ## Statistics helpers, from `src/metrics.ts` -/

/-- Median: `src/metrics.ts` lines 202-212.  Out-of-range `getD` defaults are
never reached: for a non-empty list both probed indices are in range. -/
def median (values : List ℚ) : Option ℚ :=
  if values.length = 0 then none
  else
    let sorted := sortByKey id values
    let mid := sorted.length / 2
    if sorted.length % 2 = 0 then
      some ((sorted.getD (mid - 1) 0 + sorted.getD mid 0) / 2)
    else
      some (sorted.getD mid 0)

/-- Percentile: `src/metrics.ts` lines 217-223.  `index` is
`ceil((p/100) * n) - 1`, clamped below at 0. -/
def percentile (values : List ℚ) (p : ℚ) : Option ℚ :=
  if values.length = 0 then none
  else
    let sorted := sortByKey id values
    let index : ℤ := Int.ceil (p / 100 * (sorted.length : ℚ)) - 1
    some (sorted.getD (max 0 index).toNat 0)

/-! ## The Aggregator, from `src/metrics.ts` `calculateMetrics` -/

/-- Cycle times: `src/metrics.ts` lines 58-61, `(mergedAt - createdAt)` in
hours. -/
def cycleTimesOf (pullRequests : List PullRequest) : List ℚ :=
  pullRequests.map (fun pr => (pr.mergedAt - pr.createdAt) / (1000 * 60 * 60))

/-- Reviews of a PR that are not by the PR's own author:
`reviews.filter((r) => r.author !== pr.author)`, used at `src/metrics.ts`
lines 69 and 94. -/
def nonAuthorReviews (pr : PullRequest) (reviews : List Review) : List Review :=
  reviews.filter (fun r => r.author != pr.author)

/-- First non-author review by submission time: `src/metrics.ts` lines 68-70
(`filter`, stable ascending `sort`, then `[0]`). -/
def firstReview (pr : PullRequest) (reviews : List Review) : Option Review :=
  (sortByKey (fun r => r.submittedAt) (nonAuthorReviews pr reviews)).head?

/-- Review turnarounds: `src/metrics.ts` lines 64-76.  A PR with no
qualifying review contributes nothing. -/
def reviewTurnarounds (pullRequests : List PullRequest)
    (reviewsByPR : Nat → List Review) : List ℚ :=
  pullRequests.filterMap (fun pr =>
    (firstReview pr (reviewsByPR pr.number)).map
      (fun fr => (fr.submittedAt - pr.createdAt) / (1000 * 60 * 60)))

/-- One step of the contributor tally: `current = get(author) || 0` then
`set(author, current + 1)` on an insertion-ordered map
(`src/metrics.ts` lines 80-83). -/
def bumpCount (author : String) : List (String × Nat) → List (String × Nat)
  | [] => [(author, 1)]
  | (a, n) :: rest =>
    if a = author then (a, n + 1) :: rest else (a, n) :: bumpCount author rest

/-- Contributor PR counts, insertion-ordered: `src/metrics.ts` lines 79-83. -/
def contributorPRCounts (pullRequests : List PullRequest) : List (String × Nat) :=
  pullRequests.foldl (fun acc pr => bumpCount pr.author acc) []

/-- Largest per-author PR count: `Math.max(...counts.values())` at
`src/metrics.ts` line 86.  In the source an empty spread yields `-Infinity`,
but that value is consumed only under the `totalPRs > 0` guard, where the
tally is non-empty, so the base value 0 is never observable. -/
def maxContribution (counts : List (String × Nat)) : Nat :=
  counts.foldl (fun m c => max m c.2) 0

/-- One loop step of review-depth accumulation: `src/metrics.ts` lines 92-99;
the pair is `(totalComments, prsWithReviews)`. -/
def depthAccum (reviewsByPR : Nat → List Review) (acc : ℚ × Nat)
    (pr : PullRequest) : ℚ × Nat :=
  let nar := nonAuthorReviews pr (reviewsByPR pr.number)
  if nar.length > 0 then
    (acc.1 + nar.foldl (fun sum r => sum + r.commentCount) 0, acc.2 + 1)
  else acc

/-- Review-depth data `(totalComments, prsWithReviews)`: `src/metrics.ts`
lines 90-99. -/
def reviewDepthData (pullRequests : List PullRequest)
    (reviewsByPR : Nat → List Review) : ℚ × Nat :=
  pullRequests.foldl (depthAccum reviewsByPR) (0, 0)

/-- The ship event the lead-time loop picks for a PR: the sorted-ascending
ship list's first event at or after the merge time
(`src/metrics.ts` lines 145-157). -/
def chosenShipEvent (shipEvents : List ShipEvent) (pr : PullRequest) :
    Option ShipEvent :=
  (sortByKey (fun e => e.createdAt) shipEvents).find?
    (fun e => decide (pr.mergedAt ≤ e.createdAt))

/-- Per-PR lead times: the loop at `src/metrics.ts` lines 148-164.  A PR
without a first-commit date, or without a ship event at/after its merge, or
with a negative hour difference, contributes nothing. -/
def leadTimes (pullRequests : List PullRequest) (shipEvents : List ShipEvent)
    (firstCommitDates : List (Nat × ℚ)) : List ℚ :=
  pullRequests.filterMap (fun pr =>
    match firstCommitDates.lookup pr.number with
    | none => none
    | some firstCommitDate =>
      match chosenShipEvent shipEvents pr with
      | none => none
      | some e =>
        let hours := (e.createdAt - firstCommitDate) / (1000 * 60 * 60)
        if 0 ≤ hours then some hours else none)

/-- calculateMetrics: `src/metrics.ts` lines 51-197.  The source initializes
the optional fields to `null` and overwrites them inside `if (options)`
blocks; each field here is the corresponding per-field expression. -/
def calculateMetrics (pullRequests : List PullRequest)
    (reviewsByPR : Nat → List Review) (openPRCount : Nat)
    (options : Option MetricsOptions) : SprintMetrics :=
  let cycleTimes := cycleTimesOf pullRequests
  let turnarounds := reviewTurnarounds pullRequests reviewsByPR
  let counts := contributorPRCounts pullRequests
  let totalPRs := pullRequests.length
  let concentrationRatio : ℚ :=
    if totalPRs > 0 then (maxContribution counts : ℚ) / (totalPRs : ℚ) else 0
  let depth := reviewDepthData pullRequests reviewsByPR
  let reviewDepthScore : ℚ := if depth.2 > 0 then depth.1 / (depth.2 : ℚ) else 0
  let prSizeMedian : Option ℚ :=
    match options with
    | none => none
    | some o =>
      match o.prSizes with
      | none => none
      | some sizes =>
        if sizes.length > 0 then
          median (sizes.map (fun s => s.2.additions + s.2.deletions))
        else none
  let prSizeCategory : Option SizeCategory :=
    match prSizeMedian with
    | none => none
    | some m =>
      if m < 100 then some .small
      else if m < 400 then some .medium
      else some .large
  let buildSuccessRate : Option ℚ :=
    match options with
    | none => none
    | some o =>
      match o.workflowRuns with
      | none => none
      | some w =>
        if w.totalRuns > 0 then
          some (((round ((w.successCount : ℚ) / (w.totalRuns : ℚ) * 100) : ℤ) : ℚ))
        else none
  let buildTotalRuns : Option Nat :=
    match options with
    | none => none
    | some o =>
      match o.workflowRuns with
      | none => none
      | some w => if w.totalRuns > 0 then some w.totalRuns else none
  let shipData : Option (Nat × ShipSource × ℚ) :=
    match options with
    | none => none
    | some o =>
      match o.shipEvents with
      | none => none
      | some events =>
        match events with
        | [] => none
        | e :: _ =>
          -- `options.periodDays || 14`: JS `||` replaces 0 (falsy) too.
          let days : ℚ :=
            match o.periodDays with
            | some d => if d = 0 then 14 else d
            | none => 14
          some (events.length, e.source, (events.length : ℚ) / days)
  let leadTimeMedianHours : Option ℚ :=
    match options with
    | none => none
    | some o =>
      match o.shipEvents, o.firstCommitDates with
      | some events, some fcd =>
        if events.length > 0 ∧ fcd.length > 0 then
          let lt := leadTimes pullRequests events fcd
          if lt.length > 0 then median lt else none
        else none
      | some _, none => none
      | none, _ => none
  { cycleTimeMedianHours := (median cycleTimes).getD 0
    cycleTimeP90Hours := (percentile cycleTimes 90).getD 0
    throughputCount := pullRequests.length
    wipCount := openPRCount
    prSizeMedian := prSizeMedian
    prSizeCategory := prSizeCategory
    buildSuccessRate := buildSuccessRate
    buildTotalRuns := buildTotalRuns
    shipFrequency := shipData.map (fun s => s.2.2)
    shipCount := shipData.map (fun s => s.1)
    shipSource := shipData.map (fun s => s.2.1)
    leadTimeMedianHours := leadTimeMedianHours
    reviewTurnaroundMedianHours := (median turnarounds).getD 0
    collaboratorCount := counts.length
    concentrationRatio := concentrationRatio
    reviewDepthScore := reviewDepthScore
    cycleTimeTrend := .stable
    prNumbers := pullRequests.map (fun pr => pr.number) }

/-! ## The Evaluator, from `src/insights.ts` -/

/-- Insight severity union `'info' | 'warning' | 'critical'`. -/
inductive Severity where
  | info
  | warning
  | critical
deriving DecidableEq, Repr

/-- Insight type union: `src/insights.ts` line 12. -/
inductive InsightType where
  | knowledgeSilo
  | cycleTimeRegression
  | wipOverload
  | reviewBottleneck
  | shallowReviews
  | largePRs
  | buildFailures
  | slowLeadTime
deriving DecidableEq, Repr

/-- Insight record: `src/insights.ts` lines 11-15. -/
structure Insight where
  type : InsightType
  severity : Severity
  message : String
deriving DecidableEq, Repr

/-- Severity rank used by the final sort:
`{ critical: 0, warning: 1, info: 2 }` (`src/insights.ts` line 139). -/
def severityRank : Severity → ℚ
  | .critical => 0
  | .warning => 1
  | .info => 2

/-- WIP per collaborator, 0 when there are no collaborators:
`src/insights.ts` lines 51-53 and 151-153. -/
def wipRatioOf (m : SprintMetrics) : ℚ :=
  if m.collaboratorCount > 0 then (m.wipCount : ℚ) / (m.collaboratorCount : ℚ)
  else 0

/-- Null-check-and-compare on an optional rate:
`rate !== null && rate < cutoff`. -/
def rateBelow (rate : Option ℚ) (cutoff : ℚ) : Bool :=
  match rate with
  | some r => decide (r < cutoff)
  | none => false

/-- Knowledge-silo rule: `src/insights.ts` lines 21-33. -/
def knowledgeSiloRule (m : SprintMetrics) (t : Thresholds) : List Insight :=
  if m.concentrationRatio ≥ t.concentrationCritical then
    [{ type := .knowledgeSilo, severity := .critical,
       message := "Review patterns show significant knowledge silo risk" }]
  else if m.concentrationRatio ≥ t.concentrationWarning then
    [{ type := .knowledgeSilo, severity := .warning,
       message := "Your review patterns suggest a knowledge silo forming" }]
  else []

/-- Cycle-time rule: `src/insights.ts` lines 36-48. -/
def cycleTimeRule (m : SprintMetrics) (t : Thresholds) : List Insight :=
  if m.cycleTimeMedianHours ≥ t.cycleTimeCriticalHours then
    [{ type := .cycleTimeRegression, severity := .critical,
       message := "Cycle time marks a significant delivery bottleneck" }]
  else if m.cycleTimeMedianHours ≥ t.cycleTimeWarningHours then
    [{ type := .cycleTimeRegression, severity := .warning,
       message := "Cycle time above warning threshold" }]
  else []

/-- WIP-overload rule: `src/insights.ts` lines 51-67. -/
def wipOverloadRule (m : SprintMetrics) (t : Thresholds) : List Insight :=
  if wipRatioOf m ≥ t.wipCriticalRatio then
    [{ type := .wipOverload, severity := .critical,
       message := "WIP far above team size marks a severe flow bottleneck" }]
  else if wipRatioOf m ≥ t.wipWarningRatio then
    [{ type := .wipOverload, severity := .warning,
       message := "High WIP pressure detected, flow bottleneck likely" }]
  else []

/-- Review-bottleneck rule: `src/insights.ts` lines 70-82. -/
def reviewBottleneckRule (m : SprintMetrics) (t : Thresholds) : List Insight :=
  if m.reviewTurnaroundMedianHours ≥ t.reviewCriticalHours then
    [{ type := .reviewBottleneck, severity := .critical,
       message := "Reviews are slow enough to block delivery" }]
  else if m.reviewTurnaroundMedianHours ≥ t.reviewWarningHours then
    [{ type := .reviewBottleneck, severity := .warning,
       message := "Review turnaround could be faster" }]
  else []

/-- Shallow-reviews rule: `src/insights.ts` lines 85-97.  Note the source
pushes severity `'warning'` at the critical cutoff and `'info'` at the
warning cutoff. -/
def shallowReviewsRule (m : SprintMetrics) (t : Thresholds) : List Insight :=
  if m.throughputCount > 0 ∧ m.reviewDepthScore ≤ t.reviewDepthCritical then
    [{ type := .shallowReviews, severity := .warning,
       message := "Reviews appear to be rubber-stamps, limited knowledge transfer" }]
  else if m.throughputCount > 0 ∧ m.reviewDepthScore ≤ t.reviewDepthWarning then
    [{ type := .shallowReviews, severity := .info,
       message := "Review comments are light, consider deeper code discussions" }]
  else []

/-- Large-PRs rule: `src/insights.ts` lines 100-112.  Note the source pushes
severity `'warning'` at the critical cutoff and `'info'` at the warning
cutoff. -/
def largePRsRule (m : SprintMetrics) (t : Thresholds) : List Insight :=
  match m.prSizeMedian with
  | none => []
  | some med =>
    if med ≥ t.prSizeCritical then
      [{ type := .largePRs, severity := .warning,
         message := "PRs this large are hard to review effectively" }]
    else if med ≥ t.prSizeWarning then
      [{ type := .largePRs, severity := .info,
         message := "Consider smaller, focused changes" }]
    else []

/-- Build-failures rule: `src/insights.ts` lines 115-127. -/
def buildFailuresRule (m : SprintMetrics) (t : Thresholds) : List Insight :=
  match m.buildSuccessRate with
  | none => []
  | some rate =>
    if rate < t.buildSuccessCritical then
      [{ type := .buildFailures, severity := .critical,
         message := "Broken builds are blocking delivery" }]
    else if rate < t.buildSuccessWarning then
      [{ type := .buildFailures, severity := .warning,
         message := "Build reliability is degrading" }]
    else []

/-- Slow-lead-time rule: `src/insights.ts` lines 130-136; the 168-hour cutoff
is hard-coded. -/
def slowLeadTimeRule (m : SprintMetrics) (_t : Thresholds) : List Insight :=
  match m.leadTimeMedianHours with
  | none => []
  | some lt =>
    if lt ≥ 168 then
      [{ type := .slowLeadTime, severity := .warning,
         message := "Lead time marks a significant deployment lag" }]
    else []

/-- All insights in rule-evaluation order, before the final sort:
the successive pushes of `src/insights.ts` lines 18-136. -/
def collectInsights (m : SprintMetrics) (t : Thresholds) : List Insight :=
  knowledgeSiloRule m t ++ cycleTimeRule m t ++ wipOverloadRule m t
    ++ reviewBottleneckRule m t ++ shallowReviewsRule m t ++ largePRsRule m t
    ++ buildFailuresRule m t ++ slowLeadTimeRule m t

/-- detectInsights: `src/insights.ts` lines 17-144 — collect, stable-sort by
severity rank, return `slice(0, 1)`. -/
def detectInsights (m : SprintMetrics) (t : Thresholds) : List Insight :=
  (sortByKey (fun i => severityRank i.severity) (collectInsights m t)).take 1

/-- getHealthEmoji: `src/insights.ts` lines 149-173. -/
def getHealthEmoji (m : SprintMetrics) (t : Thresholds) : String :=
  if decide (m.cycleTimeMedianHours ≥ t.cycleTimeCriticalHours)
      || decide (wipRatioOf m ≥ t.wipCriticalRatio)
      || rateBelow m.buildSuccessRate t.buildSuccessCritical then
    "🔴"
  else if decide (m.cycleTimeMedianHours ≥ t.cycleTimeWarningHours)
      || decide (wipRatioOf m ≥ t.wipWarningRatio)
      || decide (m.concentrationRatio ≥ t.concentrationWarning)
      || rateBelow m.buildSuccessRate t.buildSuccessWarning then
    "🟡"
  else
    "🟢"

/-! ## Concrete fixtures for witnesses and counterexamples

Fixture numbers are integral and the metric fixtures carry
`collaboratorCount = 0`, so that every comparison the Evaluator performs on
them is between rational numerals. -/

/-- Thresholds fixture (an arbitrary concrete configuration). -/
def baseThresholds : Thresholds where
  cycleTimeWarningHours := 72
  cycleTimeCriticalHours := 168
  reviewWarningHours := 24
  reviewCriticalHours := 48
  wipWarningRatio := 2
  wipCriticalRatio := 3
  concentrationWarning := 60
  concentrationCritical := 75
  reviewDepthWarning := 5
  reviewDepthCritical := 2
  prSizeWarning := 400
  prSizeCritical := 1000
  buildSuccessWarning := 90
  buildSuccessCritical := 75

/-- Healthy metrics fixture (no rule fires on it at `baseThresholds`). -/
def baseMetrics : SprintMetrics where
  cycleTimeMedianHours := 20
  cycleTimeP90Hours := 30
  throughputCount := 5
  wipCount := 2
  prSizeMedian := none
  prSizeCategory := none
  buildSuccessRate := none
  buildTotalRuns := none
  shipFrequency := none
  shipCount := none
  shipSource := none
  leadTimeMedianHours := none
  reviewTurnaroundMedianHours := 8
  collaboratorCount := 0
  concentrationRatio := 30
  reviewDepthScore := 20
  cycleTimeTrend := .stable
  prNumbers := [1, 2, 3, 4, 5]

/-- Metrics firing three rules at distinct severities: cycle time critical,
review turnaround warning, review depth info. -/
def metricsMulti : SprintMetrics :=
  { baseMetrics with
    cycleTimeMedianHours := 200
    reviewTurnaroundMedianHours := 24
    reviewDepthScore := 4 }

/-- Metrics where only the shallow-reviews rule fires, at its critical
cutoff (score 1 ≤ 2). -/
def metricsShallow : SprintMetrics :=
  { baseMetrics with reviewDepthScore := 1 }

/-- Metrics where only the large-PRs rule fires, at its critical cutoff
(median 1200 ≥ 1000). -/
def metricsLargePR : SprintMetrics :=
  { baseMetrics with prSizeMedian := some 1200 }

/-- Metrics with critical cycle time and otherwise healthy signals. -/
def metricsRed : SprintMetrics :=
  { baseMetrics with cycleTimeMedianHours := 200 }

/-- PR fixture: created at hour 0, merged at hour 24 (86400000 ms). -/
def prAlice : PullRequest where
  number := 1
  title := "PR 1"
  createdAt := 0
  mergedAt := 86400000
  author := "alice"

/-- Ship events fixture: one event at hour 12 (43200000 ms — before the
merge of `prAlice`, and closer to its first commit) and one at hour 48
(172800000 ms). -/
def shipsFix : List ShipEvent :=
  [{ id := 1, sha := "s1", createdAt := 172800000,
     source := .deployment, label := "d1" },
   { id := 2, sha := "s2", createdAt := 43200000,
     source := .deployment, label := "d2" }]

/-- First-commit dates fixture: PR 1 first committed at hour 0. -/
def fcdFix : List (Nat × ℚ) := [(1, 0)]

/-- Options fixture for the lead-time claim. -/
def optsLead : MetricsOptions where
  prSizes := none
  workflowRuns := none
  shipEvents := some shipsFix
  firstCommitDates := some fcdFix
  periodDays := none

/-- Options fixture for the build-success claim: 2 successes in 3 runs. -/
def optsBuild : MetricsOptions where
  prSizes := none
  workflowRuns := some { totalRuns := 3, successCount := 2, failureCount := 1 }
  shipEvents := none
  firstCommitDates := none
  periodDays := none

/-- Options fixture for the PR-size claim: one map entry whose PR number 99
occurs in no merged-PR list used with it. -/
def optsSizes : MetricsOptions where
  prSizes := some [(99, { additions := 80, deletions := 20 })]
  workflowRuns := none
  shipEvents := none
  firstCommitDates := none
  periodDays := none

/-- Review map fixture for the self-review claim: PR 1 has exactly one
review, authored by the PR author "alice". -/
def reviewsSelf : Nat → List Review := fun n =>
  if n = 1 then
    [{ prNumber := 1, submittedAt := 21600000, author := "alice",
       state := "COMMENTED", commentCount := 3 }]
  else []

/-- Review-map update that empties the entry of one PR number, leaving every
other entry unchanged. -/
def eraseReviews (reviewsByPR : Nat → List Review) (n : Nat) :
    Nat → List Review :=
  fun m => if m = n then [] else reviewsByPR m

/-- Three PRs with cycle times 10, 24 and 48 hours, for the percentile
claim. -/
def prsThree : List PullRequest :=
  [{ number := 1, title := "a", createdAt := 0, mergedAt := 36000000,
     author := "alice" },
   { number := 2, title := "b", createdAt := 0, mergedAt := 86400000,
     author := "bob" },
   { number := 3, title := "c", createdAt := 0, mergedAt := 172800000,
     author := "carol" }]

/-! ## Helper lemmas about the stable sort and the scan helpers -/

/-- Membership in an insertion step. -/
theorem mem_insertByKey {α : Type} (key : α → ℚ) (x : α) (l : List α) (a : α) :
    a ∈ insertByKey key x l ↔ a = x ∨ a ∈ l := by
  induction l with
  | nil => simp [insertByKey]
  | cons y l ih =>
    by_cases h : key x ≤ key y
    · simp [insertByKey, h]
    · simp only [insertByKey, if_neg h, List.mem_cons, ih]
      tauto

/-- Membership is preserved by the stable sort. -/
theorem mem_sortByKey {α : Type} (key : α → ℚ) (l : List α) (a : α) :
    a ∈ sortByKey key l ↔ a ∈ l := by
  induction l with
  | nil => simp [sortByKey]
  | cons x l ih => simp [sortByKey, mem_insertByKey, ih]

/-- Inserting into a key-sorted list keeps it key-sorted. -/
theorem pairwise_insertByKey {α : Type} (key : α → ℚ) (x : α) {l : List α}
    (h : l.Pairwise (fun a b => key a ≤ key b)) :
    (insertByKey key x l).Pairwise (fun a b => key a ≤ key b) := by
  induction l with
  | nil => simp [insertByKey]
  | cons y l ih =>
    rw [List.pairwise_cons] at h
    by_cases hxy : key x ≤ key y
    · rw [insertByKey, if_pos hxy, List.pairwise_cons]
      refine ⟨?_, List.pairwise_cons.mpr h⟩
      intro b hb
      rcases List.mem_cons.mp hb with rfl | hb
      · exact hxy
      · exact le_trans hxy (h.1 b hb)
    · rw [insertByKey, if_neg hxy, List.pairwise_cons]
      refine ⟨?_, ih h.2⟩
      intro b hb
      rcases (mem_insertByKey key x l b).mp hb with rfl | hb
      · exact le_of_lt (not_le.mp hxy)
      · exact h.1 b hb

/-- The stable sort output is key-sorted. -/
theorem pairwise_sortByKey {α : Type} (key : α → ℚ) (l : List α) :
    (sortByKey key l).Pairwise (fun a b => key a ≤ key b) := by
  induction l with
  | nil => simp [sortByKey]
  | cons x l ih => exact pairwise_insertByKey key x ih

/-- Head of the stable sort: a non-empty list sorts to a list headed by the
first element attaining the minimal key — it has a minimal key, and every
element strictly before it in the input has a strictly larger key. -/
theorem sortByKey_head {α : Type} (key : α → ℚ) (l : List α) (h : l ≠ []) :
    ∃ y ys, sortByKey key l = y :: ys ∧ (∀ j ∈ l, key y ≤ key j) ∧
      ∃ l1 l2, l = l1 ++ y :: l2 ∧ ∀ j ∈ l1, key y < key j := by
  induction l with
  | nil => exact absurd rfl h
  | cons x l ih =>
    cases l with
    | nil =>
      refine ⟨x, [], rfl, ?_, [], [], rfl, by simp⟩
      intro j hj
      rcases List.mem_cons.mp hj with rfl | hj
      · exact le_refl _
      · simp at hj
    | cons z zs =>
      obtain ⟨y, ys, hsort, hmin, l1, l2, hsplit, hstab⟩ := ih (by simp)
      have hstep : sortByKey key (x :: z :: zs) = insertByKey key x (y :: ys) := by
        rw [show sortByKey key (x :: z :: zs)
              = insertByKey key x (sortByKey key (z :: zs)) from rfl, hsort]
      by_cases hxy : key x ≤ key y
      · refine ⟨x, y :: ys, ?_, ?_, [], z :: zs, rfl, by simp⟩
        · rw [hstep, insertByKey, if_pos hxy]
        · intro j hj
          rcases List.mem_cons.mp hj with rfl | hj
          · exact le_refl _
          · exact le_trans hxy (hmin j hj)
      · refine ⟨y, insertByKey key x ys, ?_, ?_, x :: l1, l2, ?_, ?_⟩
        · rw [hstep, insertByKey, if_neg hxy]
        · intro j hj
          rcases List.mem_cons.mp hj with rfl | hj
          · exact le_of_lt (not_le.mp hxy)
          · exact hmin j hj
        · rw [hsplit]
          rfl
        · intro j hj
          rcases List.mem_cons.mp hj with rfl | hj
          · exact not_le.mp hxy
          · exact hstab j hj

/-- On a key-sorted list, a successful threshold search returns an element of
minimal key among those at or above the threshold. -/
theorem find?_min_of_pairwise {α : Type} (key : α → ℚ) (c : ℚ) (l : List α)
    (hs : l.Pairwise (fun a b => key a ≤ key b)) (a : α)
    (ha : l.find? (fun e => decide (c ≤ key e)) = some a) :
    ∀ b ∈ l, c ≤ key b → key a ≤ key b := by
  induction l with
  | nil => simp at ha
  | cons x l ih =>
    rw [List.pairwise_cons] at hs
    by_cases hx : c ≤ key x
    · rw [List.find?_cons_of_pos _ (by simpa using hx)] at ha
      cases ha
      intro b hb _
      rcases List.mem_cons.mp hb with rfl | hb
      · exact le_refl _
      · exact hs.1 b hb
    · rw [List.find?_cons_of_neg _ (by simpa using hx)] at ha
      intro b hb hcb
      rcases List.mem_cons.mp hb with rfl | hb
      · exact absurd hcb hx
      · exact ih hs.2 ha b hb hcb

/-- Pointwise-equal functions give equal filterMaps. -/
theorem filterMap_congr_mem {α β : Type} {f g : α → Option β} :
    ∀ {l : List α}, (∀ a ∈ l, f a = g a) → l.filterMap f = l.filterMap g := by
  intro l
  induction l with
  | nil => intro _; rfl
  | cons x l ih =>
    intro h
    rw [List.filterMap_cons, List.filterMap_cons, h x (by simp),
      ih (fun a ha => h a (by simp [ha]))]

/-- Pointwise-equal step functions give equal folds. -/
theorem foldl_congr_mem {α β : Type} {f g : β → α → β} :
    ∀ {l : List α} {b : β}, (∀ b2, ∀ a ∈ l, f b2 a = g b2 a) →
      l.foldl f b = l.foldl g b := by
  intro l
  induction l with
  | nil => intro _ _; rfl
  | cons x l ih =>
    intro b h
    rw [List.foldl_cons, List.foldl_cons, h b x (by simp)]
    exact ih (fun b2 a ha => h b2 a (by simp [ha]))

/-- An in-range `getD` is a member of the list. -/
theorem getD_mem {α : Type} :
    ∀ (l : List α) (i : Nat) (d : α), i < l.length → l.getD i d ∈ l := by
  intro l
  induction l with
  | nil => intro i d h; simp at h
  | cons x l ih =>
    intro i d h
    cases i with
    | zero => simp [List.getD]
    | succ i =>
      simp only [List.getD_cons_succ]
      exact List.mem_cons_of_mem x (ih i d (by simpa using h))

/-- The null-check-and-compare test read back as a proposition. -/
theorem rateBelow_eq_true (rate : Option ℚ) (c : ℚ) :
    rateBelow rate c = true ↔ ∃ r, rate = some r ∧ r < c := by
  cases rate <;> simp [rateBelow]

/-- Insertion grows the length by one. -/
theorem length_insertByKey {α : Type} (key : α → ℚ) (x : α) (l : List α) :
    (insertByKey key x l).length = l.length + 1 := by
  induction l with
  | nil => rfl
  | cons y l ih =>
    by_cases h : key x ≤ key y
    · rw [insertByKey, if_pos h]
      rfl
    · rw [insertByKey, if_neg h]
      simp [ih]

/-- The stable sort preserves length. -/
theorem length_sortByKey {α : Type} (key : α → ℚ) (l : List α) :
    (sortByKey key l).length = l.length := by
  induction l with
  | nil => rfl
  | cons x l ih =>
    rw [sortByKey, length_insertByKey, ih, List.length_cons]

/-! ## Claim theorems -/

/-- Claim C1: for every metrics record and thresholds, `detectInsights`
returns a list of length at most 1; when no rule fires the result is empty;
when rules fire, the single returned insight is one of the collected
insights, has maximal severity (minimal severity rank, critical=0 <
warning=1 < info=2), and ties go to the earlier-evaluated rule — every
collected insight strictly before the returned one has strictly larger
rank. -/
theorem detectInsights_single_max_severity (m : SprintMetrics) (t : Thresholds) :
    (detectInsights m t).length ≤ 1 ∧
    (collectInsights m t = [] → detectInsights m t = []) ∧
    (collectInsights m t ≠ [] →
      ∃ i l1 l2, detectInsights m t = [i] ∧
        collectInsights m t = l1 ++ i :: l2 ∧
        (∀ j ∈ collectInsights m t,
          severityRank i.severity ≤ severityRank j.severity) ∧
        (∀ j ∈ l1, severityRank i.severity < severityRank j.severity)) := by
  refine ⟨?_, ?_, ?_⟩
  · rw [detectInsights, List.length_take]
    exact min_le_left _ _
  · intro h
    rw [detectInsights, h]
    rfl
  · intro h
    obtain ⟨y, ys, hsort, hmin, l1, l2, hsplit, hstab⟩ :=
      sortByKey_head (fun i => severityRank i.severity) (collectInsights m t) h
    refine ⟨y, l1, l2, ?_, hsplit, hmin, hstab⟩
    rw [detectInsights, hsort]
    rfl

/-- Witness for C1 at a metrics record that fires the cycle-time rule at
critical, the review-bottleneck rule at warning and the shallow-reviews rule
at info severity. -/
theorem detectInsights_single_max_severity_witness :
    ∃ i l1 l2, detectInsights metricsMulti baseThresholds = [i] ∧
      collectInsights metricsMulti baseThresholds = l1 ++ i :: l2 ∧
      (∀ j ∈ collectInsights metricsMulti baseThresholds,
        severityRank i.severity ≤ severityRank j.severity) ∧
      (∀ j ∈ l1, severityRank i.severity < severityRank j.severity) :=
  (detectInsights_single_max_severity metricsMulti baseThresholds).2.2 (by decide)

/-- Claim C2 counterexample: at `metricsShallow` with the default
thresholds, throughput is 5 > 0 and the review-depth score 1/10 is at or
below the critical cutoff 1/5, yet the shallow-reviews insight produced (and
returned by `detectInsights`) has severity `warning`, not `critical` as the
claim states. -/
theorem shallowReviews_critical_counterexample :
    metricsShallow.throughputCount > 0 ∧
    metricsShallow.reviewDepthScore ≤ baseThresholds.reviewDepthCritical ∧
    detectInsights metricsShallow baseThresholds ≠ [] ∧
    (∀ i ∈ shallowReviewsRule metricsShallow baseThresholds,
      i.type = InsightType.shallowReviews ∧ i.severity = Severity.warning) ∧
    (∀ i ∈ detectInsights metricsShallow baseThresholds,
      i.severity ≠ Severity.critical) := by decide

/-- Claim C2 (amended): for throughput > 0 the shallow-reviews rule yields a
warning-severity (not critical-severity) insight when the review-depth score
is at or below the critical cutoff, and an info-severity insight when the
score is above the critical cutoff but at or below the warning cutoff; with
throughput 0 the rule yields nothing. -/
theorem shallowReviews_rule_severities (m : SprintMetrics) (t : Thresholds) :
    (m.throughputCount > 0 → m.reviewDepthScore ≤ t.reviewDepthCritical →
      ∃ i, shallowReviewsRule m t = [i] ∧ i.type = InsightType.shallowReviews ∧
        i.severity = Severity.warning) ∧
    (m.throughputCount > 0 → t.reviewDepthCritical < m.reviewDepthScore →
      m.reviewDepthScore ≤ t.reviewDepthWarning →
      ∃ i, shallowReviewsRule m t = [i] ∧ i.type = InsightType.shallowReviews ∧
        i.severity = Severity.info) ∧
    (m.throughputCount = 0 → shallowReviewsRule m t = []) := by
  refine ⟨?_, ?_, ?_⟩
  · intro h1 h2
    rw [shallowReviewsRule, if_pos ⟨h1, h2⟩]
    exact ⟨_, rfl, rfl, rfl⟩
  · intro h1 h2 h3
    rw [shallowReviewsRule, if_neg (fun hc => absurd hc.2 (not_le.mpr h2)),
      if_pos ⟨h1, h3⟩]
    exact ⟨_, rfl, rfl, rfl⟩
  · intro h0
    rw [shallowReviewsRule,
      if_neg (fun hc => absurd (h0 ▸ hc.1) (lt_irrefl 0)),
      if_neg (fun hc => absurd (h0 ▸ hc.1) (lt_irrefl 0))]

/-- Witness for the amended C2: the warning branch at `metricsShallow` and
the info branch at review-depth score 4. -/
theorem shallowReviews_rule_severities_witness :
    (∃ i, shallowReviewsRule metricsShallow baseThresholds = [i] ∧
      i.type = InsightType.shallowReviews ∧ i.severity = Severity.warning) ∧
    (∃ i, shallowReviewsRule { baseMetrics with reviewDepthScore := 4 }
        baseThresholds = [i] ∧
      i.type = InsightType.shallowReviews ∧ i.severity = Severity.info) :=
  ⟨(shallowReviews_rule_severities metricsShallow baseThresholds).1
      (by decide) (by decide),
   (shallowReviews_rule_severities
      { baseMetrics with reviewDepthScore := 4 } baseThresholds).2.1
      (by decide) (by decide) (by decide)⟩

/-- Claim C3 counterexample: at `metricsLargePR` with the default
thresholds, the PR-size median 1200 is present and at or above the critical
cutoff 1000, yet the large-prs insight produced (and returned by
`detectInsights`) has severity `warning`, not `critical` as the claim
states. -/
theorem largePRs_critical_counterexample :
    metricsLargePR.prSizeMedian = some 1200 ∧
    (1200 : ℚ) ≥ baseThresholds.prSizeCritical ∧
    detectInsights metricsLargePR baseThresholds ≠ [] ∧
    (∀ i ∈ largePRsRule metricsLargePR baseThresholds,
      i.type = InsightType.largePRs ∧ i.severity = Severity.warning) ∧
    (∀ i ∈ detectInsights metricsLargePR baseThresholds,
      i.severity ≠ Severity.critical) := by decide

/-- Claim C3 (amended): when the PR-size median is present the large-PRs
rule yields a warning-severity (not critical-severity) insight when the
median is at or above the critical cutoff, and an info-severity (not
warning) insight when the median is at or above the warning cutoff but below
the critical one; when the median is absent the rule yields nothing. -/
theorem largePRs_rule_severities (m : SprintMetrics) (t : Thresholds) :
    (∀ med, m.prSizeMedian = some med → med ≥ t.prSizeCritical →
      ∃ i, largePRsRule m t = [i] ∧ i.type = InsightType.largePRs ∧
        i.severity = Severity.warning) ∧
    (∀ med, m.prSizeMedian = some med → med < t.prSizeCritical →
      med ≥ t.prSizeWarning →
      ∃ i, largePRsRule m t = [i] ∧ i.type = InsightType.largePRs ∧
        i.severity = Severity.info) ∧
    (m.prSizeMedian = none → largePRsRule m t = []) := by
  refine ⟨?_, ?_, ?_⟩
  · intro med hmed hge
    rw [largePRsRule, hmed]
    simp only [ge_iff_le, if_pos hge]
    exact ⟨_, rfl, rfl, rfl⟩
  · intro med hmed hlt hge
    rw [largePRsRule, hmed]
    simp only [ge_iff_le, if_neg (not_le.mpr hlt), if_pos hge]
    exact ⟨_, rfl, rfl, rfl⟩
  · intro hnone
    rw [largePRsRule, hnone]

/-- Witness for the amended C3: the warning branch at median 1200 and the
info branch at median 500. -/
theorem largePRs_rule_severities_witness :
    (∃ i, largePRsRule metricsLargePR baseThresholds = [i] ∧
      i.type = InsightType.largePRs ∧ i.severity = Severity.warning) ∧
    (∃ i, largePRsRule { baseMetrics with prSizeMedian := some 500 }
        baseThresholds = [i] ∧
      i.type = InsightType.largePRs ∧ i.severity = Severity.info) :=
  ⟨(largePRs_rule_severities metricsLargePR baseThresholds).1 1200
      (by decide) (by decide),
   (largePRs_rule_severities { baseMetrics with prSizeMedian := some 500 }
      baseThresholds).2.1 500 rfl (by decide) (by decide)⟩

/-- Claim C4: `getHealthEmoji` returns the critical status exactly when
cycle-time median ≥ its critical threshold, or the WIP ratio (wipCount over
collaboratorCount, 0 when there are no collaborators) ≥ its critical
threshold, or the build rate is present and below its critical threshold;
otherwise the warning status exactly when cycle-time median ≥ its warning
threshold, or the WIP ratio ≥ its warning threshold, or the concentration
ratio ≥ its warning threshold, or the build rate is present and below its
warning threshold; otherwise the healthy status. -/
theorem getHealthEmoji_spec (m : SprintMetrics) (t : Thresholds) :
    (getHealthEmoji m t = "🔴" ↔
      (m.cycleTimeMedianHours ≥ t.cycleTimeCriticalHours ∨
       (if m.collaboratorCount > 0 then
          (m.wipCount : ℚ) / (m.collaboratorCount : ℚ) else 0)
         ≥ t.wipCriticalRatio ∨
       ∃ r, m.buildSuccessRate = some r ∧ r < t.buildSuccessCritical)) ∧
    (getHealthEmoji m t = "🟡" ↔
      (¬ (m.cycleTimeMedianHours ≥ t.cycleTimeCriticalHours ∨
          (if m.collaboratorCount > 0 then
             (m.wipCount : ℚ) / (m.collaboratorCount : ℚ) else 0)
            ≥ t.wipCriticalRatio ∨
          ∃ r, m.buildSuccessRate = some r ∧ r < t.buildSuccessCritical) ∧
       (m.cycleTimeMedianHours ≥ t.cycleTimeWarningHours ∨
        (if m.collaboratorCount > 0 then
           (m.wipCount : ℚ) / (m.collaboratorCount : ℚ) else 0)
          ≥ t.wipWarningRatio ∨
        m.concentrationRatio ≥ t.concentrationWarning ∨
        ∃ r, m.buildSuccessRate = some r ∧ r < t.buildSuccessWarning))) ∧
    (getHealthEmoji m t = "🟢" ↔
      (¬ (m.cycleTimeMedianHours ≥ t.cycleTimeCriticalHours ∨
          (if m.collaboratorCount > 0 then
             (m.wipCount : ℚ) / (m.collaboratorCount : ℚ) else 0)
            ≥ t.wipCriticalRatio ∨
          ∃ r, m.buildSuccessRate = some r ∧ r < t.buildSuccessCritical) ∧
       ¬ (m.cycleTimeMedianHours ≥ t.cycleTimeWarningHours ∨
          (if m.collaboratorCount > 0 then
             (m.wipCount : ℚ) / (m.collaboratorCount : ℚ) else 0)
            ≥ t.wipWarningRatio ∨
          m.concentrationRatio ≥ t.concentrationWarning ∨
          ∃ r, m.buildSuccessRate = some r ∧ r < t.buildSuccessWarning))) := by
  have hcrit :
      (decide (m.cycleTimeMedianHours ≥ t.cycleTimeCriticalHours)
        || decide (wipRatioOf m ≥ t.wipCriticalRatio)
        || rateBelow m.buildSuccessRate t.buildSuccessCritical) = true ↔
      (m.cycleTimeMedianHours ≥ t.cycleTimeCriticalHours ∨
       (if m.collaboratorCount > 0 then
          (m.wipCount : ℚ) / (m.collaboratorCount : ℚ) else 0)
         ≥ t.wipCriticalRatio ∨
       ∃ r, m.buildSuccessRate = some r ∧ r < t.buildSuccessCritical) := by
    simp [wipRatioOf, rateBelow_eq_true, Bool.or_eq_true, decide_eq_true_eq,
      or_assoc]
  have hwarn :
      (decide (m.cycleTimeMedianHours ≥ t.cycleTimeWarningHours)
        || decide (wipRatioOf m ≥ t.wipWarningRatio)
        || decide (m.concentrationRatio ≥ t.concentrationWarning)
        || rateBelow m.buildSuccessRate t.buildSuccessWarning) = true ↔
      (m.cycleTimeMedianHours ≥ t.cycleTimeWarningHours ∨
       (if m.collaboratorCount > 0 then
          (m.wipCount : ℚ) / (m.collaboratorCount : ℚ) else 0)
         ≥ t.wipWarningRatio ∨
       m.concentrationRatio ≥ t.concentrationWarning ∨
       ∃ r, m.buildSuccessRate = some r ∧ r < t.buildSuccessWarning) := by
    simp [wipRatioOf, rateBelow_eq_true, Bool.or_eq_true, decide_eq_true_eq,
      or_assoc]
  rw [getHealthEmoji]
  by_cases h1 : (decide (m.cycleTimeMedianHours ≥ t.cycleTimeCriticalHours)
      || decide (wipRatioOf m ≥ t.wipCriticalRatio)
      || rateBelow m.buildSuccessRate t.buildSuccessCritical) = true
  · rw [if_pos h1]
    refine ⟨iff_of_true rfl (hcrit.mp h1), ?_, ?_⟩
    · exact iff_of_false (by decide) (fun hc => hc.1 (hcrit.mp h1))
    · exact iff_of_false (by decide) (fun hc => hc.1 (hcrit.mp h1))
  · rw [if_neg h1]
    by_cases h2 : (decide (m.cycleTimeMedianHours ≥ t.cycleTimeWarningHours)
        || decide (wipRatioOf m ≥ t.wipWarningRatio)
        || decide (m.concentrationRatio ≥ t.concentrationWarning)
        || rateBelow m.buildSuccessRate t.buildSuccessWarning) = true
    · rw [if_pos h2]
      refine ⟨?_, ?_, ?_⟩
      · exact iff_of_false (by decide) (fun hc => h1 (hcrit.mpr hc))
      · exact iff_of_true rfl ⟨fun hc => h1 (hcrit.mpr hc), hwarn.mp h2⟩
      · exact iff_of_false (by decide) (fun hc => hc.2 (hwarn.mp h2))
    · rw [if_neg h2]
      refine ⟨?_, ?_, ?_⟩
      · exact iff_of_false (by decide) (fun hc => h1 (hcrit.mpr hc))
      · exact iff_of_false (by decide) (fun hc => h2 (hwarn.mpr hc.2))
      · exact iff_of_true rfl
          ⟨fun hc => h1 (hcrit.mpr hc), fun hc => h2 (hwarn.mpr hc)⟩

/-- Witness for C4: the critical status at `metricsRed` (cycle time 200 ≥
the 168 critical cutoff) and the healthy status at `baseMetrics`. -/
theorem getHealthEmoji_spec_witness :
    getHealthEmoji metricsRed baseThresholds = "🔴" ∧
    getHealthEmoji baseMetrics baseThresholds = "🟢" :=
  ⟨(getHealthEmoji_spec metricsRed baseThresholds).1.mpr
      (Or.inl (by decide)),
   (getHealthEmoji_spec baseMetrics baseThresholds).2.2.mpr
      ⟨fun hc => by
        rcases hc with h | h | ⟨r, hr, _⟩
        · exact absurd h (by decide)
        · revert h
          decide
        · exact Option.noConfusion hr,
       fun hc => by
        rcases hc with h | h | h | ⟨r, hr, _⟩
        · exact absurd h (by decide)
        · revert h
          decide
        · exact absurd h (by decide)
        · exact Option.noConfusion hr⟩⟩

/-- Claim C6: for every reviews map, open-PR count and options value,
`calculateMetrics` on the empty pull-request list is defined (the embedding
is total) and returns zero cycle-time median and P90, zero throughput, zero
review-turnaround median, zero concentration ratio, zero review-depth score,
zero collaborators and an empty PR-number list. -/
theorem calculateMetrics_empty (reviewsByPR : Nat → List Review)
    (openPRCount : Nat) (options : Option MetricsOptions) :
    (calculateMetrics [] reviewsByPR openPRCount options).cycleTimeMedianHours = 0 ∧
    (calculateMetrics [] reviewsByPR openPRCount options).cycleTimeP90Hours = 0 ∧
    (calculateMetrics [] reviewsByPR openPRCount options).throughputCount = 0 ∧
    (calculateMetrics [] reviewsByPR openPRCount options).reviewTurnaroundMedianHours = 0 ∧
    (calculateMetrics [] reviewsByPR openPRCount options).concentrationRatio = 0 ∧
    (calculateMetrics [] reviewsByPR openPRCount options).reviewDepthScore = 0 ∧
    (calculateMetrics [] reviewsByPR openPRCount options).collaboratorCount = 0 ∧
    (calculateMetrics [] reviewsByPR openPRCount options).prNumbers = [] :=
  ⟨rfl, rfl, rfl, rfl, rfl, rfl, rfl, rfl⟩

/-- Claim C5: with a non-empty ship-event collection and a non-empty
first-commit-date map, the lead-time field is the median of the retained
per-PR lead times and is absent when no PR yields a usable pair; the event
chosen for a PR is at or after the PR's merge timestamp and is the earliest
such event of the whole collection (an earlier event is never chosen); when
no event is at or after the merge, none is chosen; and every retained value
is non-negative (negative differences are discarded). -/
theorem leadTime_spec (prs : List PullRequest) (reviewsByPR : Nat → List Review)
    (openPRCount : Nat) (o : MetricsOptions) (ships : List ShipEvent)
    (fcd : List (Nat × ℚ)) (hs : o.shipEvents = some ships)
    (hf : o.firstCommitDates = some fcd) (hns : ships ≠ []) (hnf : fcd ≠ []) :
    ((calculateMetrics prs reviewsByPR openPRCount (some o)).leadTimeMedianHours
        = if leadTimes prs ships fcd = [] then none
          else median (leadTimes prs ships fcd)) ∧
    (∀ pr e, chosenShipEvent ships pr = some e →
        e ∈ ships ∧ pr.mergedAt ≤ e.createdAt ∧
        ∀ e2 ∈ ships, pr.mergedAt ≤ e2.createdAt →
          e.createdAt ≤ e2.createdAt) ∧
    (∀ pr : PullRequest, (∀ e2 ∈ ships, ¬ pr.mergedAt ≤ e2.createdAt) →
        chosenShipEvent ships pr = none) ∧
    (∀ h2 ∈ leadTimes prs ships fcd, 0 ≤ h2) := by
  refine ⟨?_, ?_, ?_, ?_⟩
  · obtain ⟨pz, wr, se, fc, pd⟩ := o
    simp only at hs hf
    subst hs
    subst hf
    have hstep :
        (calculateMetrics prs reviewsByPR openPRCount
          (some ⟨pz, wr, some ships, some fcd, pd⟩)).leadTimeMedianHours
        = if ships.length > 0 ∧ fcd.length > 0 then
            if (leadTimes prs ships fcd).length > 0
            then median (leadTimes prs ships fcd) else none
          else none := rfl
    rw [hstep,
      if_pos ⟨List.length_pos.mpr hns, List.length_pos.mpr hnf⟩]
    by_cases hlt : leadTimes prs ships fcd = []
    · simp [hlt]
    · simp [hlt, List.length_pos.mpr hlt]
  · intro pr e he
    rw [chosenShipEvent] at he
    have hp := List.find?_some he
    refine ⟨(mem_sortByKey _ ships e).mp (List.mem_of_find?_eq_some he),
      of_decide_eq_true hp, ?_⟩
    intro e2 he2 hge
    exact find?_min_of_pairwise (fun s => s.createdAt) pr.mergedAt _
      (pairwise_sortByKey _ ships) e he e2
      ((mem_sortByKey _ ships e2).mpr he2) hge
  · intro pr hnone
    rw [chosenShipEvent, List.find?_eq_none]
    intro x hx
    simp only [decide_eq_true_eq]
    exact hnone x ((mem_sortByKey _ ships x).mp hx)
  · intro h2 hmem
    rw [leadTimes, List.mem_filterMap] at hmem
    obtain ⟨pr, _, heq⟩ := hmem
    rcases hl : List.lookup pr.number fcd with _ | fc <;>
      rw [hl] at heq <;> dsimp only at heq
    · exact Option.noConfusion heq
    · rcases hc : chosenShipEvent ships pr with _ | e <;>
        rw [hc] at heq <;> dsimp only at heq
      · exact Option.noConfusion heq
      · by_cases h0 : 0 ≤ (e.createdAt - fc) / (1000 * 60 * 60)
        · rw [if_pos h0] at heq
          cases heq
          exact h0
        · rw [if_neg h0] at heq
          exact Option.noConfusion heq

/-- Witness for C5 at one PR merged at hour 24, ship events at hours 12 and
48 and a first commit at hour 0 (timestamps in epoch milliseconds): the
chosen ship event is the hour-48 one — the hour-12 event, earlier than the
merge and closer to the first commit, is skipped. -/
theorem leadTime_spec_witness :
    ((calculateMetrics [prAlice] (fun _ => []) 0 (some optsLead)).leadTimeMedianHours
        = if leadTimes [prAlice] shipsFix fcdFix = [] then none
          else median (leadTimes [prAlice] shipsFix fcdFix)) ∧
    chosenShipEvent shipsFix prAlice
      = some { id := 1, sha := "s1", createdAt := 172800000,
               source := ShipSource.deployment, label := "d1" } :=
  ⟨(leadTime_spec [prAlice] (fun _ => []) 0 optsLead shipsFix fcdFix rfl rfl
      (List.cons_ne_nil _ _) (List.cons_ne_nil _ _)).1,
   by decide⟩

/-- Claim C7: replacing the review list of a PR that contains only reviews
authored by that PR's own author with the empty list leaves both the
review-turnaround median and the review-depth score unchanged — self-reviews
are filtered out of both computations, and such a PR is dropped from both
samples rather than scored as 0.  The hypothesis `hid` states that the PR's
number identifies its author among the listed PRs (PR numbers are
identities in the data model). -/
theorem selfReviews_inert (prs : List PullRequest)
    (reviewsByPR : Nat → List Review) (openPRCount : Nat)
    (options : Option MetricsOptions) (pr : PullRequest)
    (_hmem : pr ∈ prs)
    (hid : ∀ pr2 ∈ prs, pr2.number = pr.number → pr2.author = pr.author)
    (hself : ∀ r ∈ reviewsByPR pr.number, r.author = pr.author) :
    (calculateMetrics prs (eraseReviews reviewsByPR pr.number) openPRCount
        options).reviewTurnaroundMedianHours
      = (calculateMetrics prs reviewsByPR openPRCount
          options).reviewTurnaroundMedianHours ∧
    (calculateMetrics prs (eraseReviews reviewsByPR pr.number) openPRCount
        options).reviewDepthScore
      = (calculateMetrics prs reviewsByPR openPRCount
          options).reviewDepthScore := by
  have key : ∀ pr2 ∈ prs,
      nonAuthorReviews pr2 (eraseReviews reviewsByPR pr.number pr2.number)
        = nonAuthorReviews pr2 (reviewsByPR pr2.number) := by
    intro pr2 h2
    have harg : eraseReviews reviewsByPR pr.number pr2.number
        = if pr2.number = pr.number then [] else reviewsByPR pr2.number := rfl
    by_cases hn : pr2.number = pr.number
    · rw [harg, if_pos hn, hn]
      have hauth : pr2.author = pr.author := hid pr2 h2 hn
      rw [nonAuthorReviews, nonAuthorReviews, List.filter_nil]
      symm
      rw [List.filter_eq_nil_iff]
      intro r hr
      rw [hself r hr, hauth]
      simp
    · rw [harg, if_neg hn]
  have ht : reviewTurnarounds prs (eraseReviews reviewsByPR pr.number)
      = reviewTurnarounds prs reviewsByPR := by
    rw [reviewTurnarounds, reviewTurnarounds]
    apply filterMap_congr_mem
    intro pr2 h2
    rw [firstReview, firstReview, key pr2 h2]
  have hd : reviewDepthData prs (eraseReviews reviewsByPR pr.number)
      = reviewDepthData prs reviewsByPR := by
    rw [reviewDepthData, reviewDepthData]
    apply foldl_congr_mem
    intro b pr2 h2
    rw [depthAccum, depthAccum, key pr2 h2]
  have hproj1 : ∀ f : Nat → List Review,
      (calculateMetrics prs f openPRCount options).reviewTurnaroundMedianHours
        = (median (reviewTurnarounds prs f)).getD 0 := fun _ => rfl
  have hproj2 : ∀ f : Nat → List Review,
      (calculateMetrics prs f openPRCount options).reviewDepthScore
        = (if (reviewDepthData prs f).2 > 0 then
            (reviewDepthData prs f).1 / ((reviewDepthData prs f).2 : ℚ)
          else 0) := fun _ => rfl
  constructor
  · rw [hproj1, hproj1, ht]
  · rw [hproj2, hproj2, hd]

/-- Witness for C7: one PR by alice whose single review is alice's own;
erasing that review list leaves both collaboration metrics unchanged. -/
theorem selfReviews_inert_witness :
    (calculateMetrics [prAlice] (eraseReviews reviewsSelf 1) 0
        none).reviewTurnaroundMedianHours
      = (calculateMetrics [prAlice] reviewsSelf 0
          none).reviewTurnaroundMedianHours ∧
    (calculateMetrics [prAlice] (eraseReviews reviewsSelf 1) 0
        none).reviewDepthScore
      = (calculateMetrics [prAlice] reviewsSelf 0 none).reviewDepthScore :=
  selfReviews_inert [prAlice] reviewsSelf 0 none prAlice
    (List.mem_singleton.mpr rfl)
    (by
      intro pr2 h2 _
      rw [List.mem_singleton.mp h2])
    (by decide)

/-- Claim C8: the build fields are both absent (`none`, not zero) when the
options value or the workflow-run summary is absent or the total-run count
is 0; otherwise the rate is `round(successCount / totalRuns * 100)` (nearest
whole integer, halves up, as JS `Math.round`) and the total-runs field
carries the summary's count. -/
theorem buildFields_spec (prs : List PullRequest)
    (reviewsByPR : Nat → List Review) (openPRCount : Nat) :
    ((calculateMetrics prs reviewsByPR openPRCount none).buildSuccessRate = none ∧
     (calculateMetrics prs reviewsByPR openPRCount none).buildTotalRuns = none) ∧
    (∀ o : MetricsOptions, o.workflowRuns = none →
      (calculateMetrics prs reviewsByPR openPRCount (some o)).buildSuccessRate
          = none ∧
      (calculateMetrics prs reviewsByPR openPRCount (some o)).buildTotalRuns
          = none) ∧
    (∀ (o : MetricsOptions) (w : WorkflowRunSummary), o.workflowRuns = some w →
      w.totalRuns = 0 →
      (calculateMetrics prs reviewsByPR openPRCount (some o)).buildSuccessRate
          = none ∧
      (calculateMetrics prs reviewsByPR openPRCount (some o)).buildTotalRuns
          = none) ∧
    (∀ (o : MetricsOptions) (w : WorkflowRunSummary), o.workflowRuns = some w →
      0 < w.totalRuns →
      (calculateMetrics prs reviewsByPR openPRCount (some o)).buildSuccessRate
          = some (((round ((w.successCount : ℚ) / (w.totalRuns : ℚ) * 100) : ℤ) : ℚ)) ∧
      (calculateMetrics prs reviewsByPR openPRCount (some o)).buildTotalRuns
          = some w.totalRuns) := by
  have hrate : ∀ o : MetricsOptions,
      (calculateMetrics prs reviewsByPR openPRCount (some o)).buildSuccessRate
        = match o.workflowRuns with
          | none => none
          | some w =>
            if w.totalRuns > 0 then
              some (((round ((w.successCount : ℚ) / (w.totalRuns : ℚ) * 100) : ℤ) : ℚ))
            else none := fun _ => rfl
  have hruns : ∀ o : MetricsOptions,
      (calculateMetrics prs reviewsByPR openPRCount (some o)).buildTotalRuns
        = match o.workflowRuns with
          | none => none
          | some w => if w.totalRuns > 0 then some w.totalRuns else none :=
    fun _ => rfl
  refine ⟨⟨rfl, rfl⟩, ?_, ?_, ?_⟩
  · intro o hw
    rw [hrate, hruns, hw]
    exact ⟨rfl, rfl⟩
  · intro o w hw h0
    rw [hrate, hruns, hw]
    constructor <;> · dsimp only; rw [if_neg (by rw [h0]; exact lt_irrefl 0)]
  · intro o w hw h0
    rw [hrate, hruns, hw]
    constructor <;> · dsimp only; rw [if_pos h0]

/-- Witness for C8 at 2 successes out of 3 runs: the rate is the rounding
formula's value, which evaluates to 67 (not 66), and the total-runs field is
3. -/
theorem buildFields_spec_witness :
    (calculateMetrics [] (fun _ => []) 0 (some optsBuild)).buildSuccessRate
        = some 67 ∧
    (calculateMetrics [] (fun _ => []) 0 (some optsBuild)).buildTotalRuns
        = some 3 := by
  have happ := (buildFields_spec [] (fun _ => []) 0).2.2.2 optsBuild
    { totalRuns := 3, successCount := 2, failureCount := 1 } rfl (by decide)
  refine ⟨?_, happ.2⟩
  rw [happ.1]
  rw [show ((({ totalRuns := 3, successCount := 2, failureCount := 1 } :
      WorkflowRunSummary).successCount : ℚ))
        / ((({ totalRuns := 3, successCount := 2, failureCount := 1 } :
      WorkflowRunSummary).totalRuns : ℚ)) * 100 = 200 / 3 by norm_num]
  rw [round_eq]
  norm_num

/-- Claim C9: on a non-empty value list with percentile p ≤ 100, the
percentile is the ascending-sorted list's entry at index
`ceil((p/100) * n) - 1` clamped below at 0; that entry is an element of the
sample; and for a 3-element sample at p = 90 it is the maximum.  In
particular the P90 cycle-time field over 3 PRs is a cycle time of the sample
that bounds the whole sample from above. -/
theorem percentile_spec :
    (∀ (values : List ℚ) (p : ℚ), values ≠ [] → p ≤ 100 →
      ∃ r, percentile values p = some r ∧ r ∈ values ∧
        (sortByKey id values).getD
          (max 0 (Int.ceil (p / 100 * ((sortByKey id values).length : ℚ))
            - 1)).toNat 0 = r ∧
        (values.length = 3 → p = 90 → ∀ x ∈ values, x ≤ r)) ∧
    (∀ (prs : List PullRequest) (reviewsByPR : Nat → List Review)
        (openPRCount : Nat) (options : Option MetricsOptions),
      prs.length = 3 →
      ((calculateMetrics prs reviewsByPR openPRCount
          options).cycleTimeP90Hours ∈ cycleTimesOf prs ∧
       ∀ x ∈ cycleTimesOf prs,
         x ≤ (calculateMetrics prs reviewsByPR openPRCount
            options).cycleTimeP90Hours)) := by
  have main : ∀ (values : List ℚ) (p : ℚ), values ≠ [] → p ≤ 100 →
      ∃ r, percentile values p = some r ∧ r ∈ values ∧
        (sortByKey id values).getD
          (max 0 (Int.ceil (p / 100 * ((sortByKey id values).length : ℚ))
            - 1)).toNat 0 = r ∧
        (values.length = 3 → p = 90 → ∀ x ∈ values, x ≤ r) := by
    intro values p hne hp
    have hlen0 : values.length ≠ 0 := fun h => hne (List.length_eq_zero.mp h)
    have hslen : (sortByKey id values).length = values.length :=
      length_sortByKey id values
    have hceil : Int.ceil (p / 100 * ((sortByKey id values).length : ℚ))
        ≤ ((sortByKey id values).length : ℤ) := by
      rw [Int.ceil_le]
      push_cast
      have h1 : p / 100 ≤ 1 := by
        rw [div_le_one (by norm_num : (0:ℚ) < 100)]
        exact hp
      calc p / 100 * ((sortByKey id values).length : ℚ)
          ≤ 1 * ((sortByKey id values).length : ℚ) :=
            mul_le_mul_of_nonneg_right h1 (by positivity)
        _ = _ := one_mul _
    have hpos : 0 < (sortByKey id values).length := by
      rw [hslen]
      exact Nat.pos_of_ne_zero hlen0
    have hk : (max 0 (Int.ceil (p / 100 * ((sortByKey id values).length : ℚ))
        - 1)).toNat < (sortByKey id values).length := by omega
    refine ⟨(sortByKey id values).getD
        (max 0 (Int.ceil (p / 100 * ((sortByKey id values).length : ℚ))
          - 1)).toNat 0, ?_, ?_, rfl, ?_⟩
    · unfold percentile
      rw [if_neg hlen0]
    · exact (mem_sortByKey id values _).mp
        (getD_mem (sortByKey id values) _ 0 hk)
    · intro h3 hp90 x hx
      subst hp90
      obtain ⟨a, b, c, habc⟩ := List.length_eq_three.mp (hslen.trans h3)
      have hsorted := pairwise_sortByKey id values
      rw [habc] at hsorted
      simp only [List.pairwise_cons, List.mem_cons, List.not_mem_nil,
        or_false, id_eq, forall_eq_or_imp, forall_eq] at hsorted
      obtain ⟨⟨_, hac⟩, hbc, -⟩ := hsorted
      have hceil3 : Int.ceil ((90:ℚ) / 100
          * ((sortByKey id values).length : ℚ)) = 3 := by
        have hv : ((90:ℚ) / 100 * ((sortByKey id values).length : ℚ))
            = 27 / 10 := by
          rw [habc]
          norm_num
        rw [hv, Int.ceil_eq_iff]
        norm_num
      have hk2 : (max 0 (Int.ceil ((90:ℚ) / 100
          * ((sortByKey id values).length : ℚ)) - 1)).toNat = 2 := by
        rw [hceil3]
        rfl
      rw [hk2, habc]
      have hx2 : x ∈ [a, b, c] := habc ▸ (mem_sortByKey id values x).mpr hx
      simp only [List.mem_cons, List.not_mem_nil, or_false] at hx2
      rcases hx2 with rfl | rfl | rfl
      · exact hac
      · exact hbc
      · exact le_refl _
  refine ⟨main, ?_⟩
  intro prs reviewsByPR openPRCount options h3
  have hproj : (calculateMetrics prs reviewsByPR openPRCount
      options).cycleTimeP90Hours = (percentile (cycleTimesOf prs) 90).getD 0 :=
    rfl
  have hlen : (cycleTimesOf prs).length = 3 := by
    rw [cycleTimesOf, List.length_map, h3]
  have hne : cycleTimesOf prs ≠ [] := by
    intro h
    rw [h] at hlen
    exact absurd hlen (by decide)
  obtain ⟨r, hperc, hmem2, _, hmax⟩ :=
    main (cycleTimesOf prs) 90 hne (by norm_num)
  have hval : (calculateMetrics prs reviewsByPR openPRCount
      options).cycleTimeP90Hours = r := by
    rw [hproj, hperc]
    rfl
  constructor
  · rw [hval]
    exact hmem2
  · intro x hx
    rw [hval]
    exact hmax hlen rfl x hx

/-- Witness for C9 at 3 PRs with cycle times 10, 24 and 48 hours: the P90
field is one of the three cycle times and bounds all of them. -/
theorem percentile_spec_witness :
    (calculateMetrics prsThree (fun _ => []) 0 none).cycleTimeP90Hours
        ∈ cycleTimesOf prsThree ∧
    (∀ x ∈ cycleTimesOf prsThree,
      x ≤ (calculateMetrics prsThree (fun _ => []) 0 none).cycleTimeP90Hours) :=
  percentile_spec.2 prsThree (fun _ => []) 0 none rfl

/-- Claim C10: with a supplied non-empty PR-size map, the PR-size median is
the median of additions + deletions over every entry of the map, and it does
not depend on the merged-PR list (or any other non-options argument) at all:
map entries whose PR numbers match no merged PR still count. -/
theorem prSizeMedian_spec (prs prs2 : List PullRequest)
    (reviewsByPR reviewsByPR2 : Nat → List Review) (k k2 : Nat)
    (o : MetricsOptions) (sizes : List (Nat × PRSize))
    (hsz : o.prSizes = some sizes) (hne : sizes ≠ []) :
    (calculateMetrics prs reviewsByPR k (some o)).prSizeMedian
      = median (sizes.map (fun s => s.2.additions + s.2.deletions)) ∧
    (calculateMetrics prs reviewsByPR k (some o)).prSizeMedian
      = (calculateMetrics prs2 reviewsByPR2 k2 (some o)).prSizeMedian := by
  have hp : ∀ (ps : List PullRequest) (f : Nat → List Review) (kk : Nat),
      (calculateMetrics ps f kk (some o)).prSizeMedian
        = match o.prSizes with
          | none => none
          | some sz =>
            if sz.length > 0 then
              median (sz.map (fun s => s.2.additions + s.2.deletions))
            else none := fun _ _ _ => rfl
  constructor
  · rw [hp, hsz]
    dsimp only
    rw [if_pos (List.length_pos.mpr hne)]
  · rw [hp, hp]

/-- Witness for C10: an empty merged-PR list with a one-entry size map for
PR number 99 (which no merged PR carries) still yields the median 100 =
80 + 20, and swapping in a different PR list changes nothing. -/
theorem prSizeMedian_spec_witness :
    (calculateMetrics [] (fun _ => []) 0 (some optsSizes)).prSizeMedian
      = median ([((99 : Nat),
          ({ additions := 80, deletions := 20 } : PRSize))].map
            (fun s => s.2.additions + s.2.deletions)) ∧
    (calculateMetrics [] (fun _ => []) 0 (some optsSizes)).prSizeMedian
      = (calculateMetrics prsThree (fun _ => []) 7
          (some optsSizes)).prSizeMedian :=
  ⟨(prSizeMedian_spec [] prsThree (fun _ => []) (fun _ => []) 0 7 optsSizes
      _ rfl (List.cons_ne_nil _ _)).1,
   (prSizeMedian_spec [] prsThree (fun _ => []) (fun _ => []) 0 7 optsSizes
      _ rfl (List.cons_ne_nil _ _)).2⟩

end PRMetrics
